import Mathlib

set_option maxHeartbeats 1000000

/-!
Shallow embedding of the character animation and motion layer of the
repository: the locomotion state machine and procedural offset layer of
src/animationController.js, the spring-damper secondary motion of
src/secondaryMotion.js, and the character motion integrator of
src/main.js.  JavaScript numbers are modelled as exact rationals where
the code only adds, multiplies, divides and compares, and as reals where
square roots or trigonometry appear.
-/

namespace Game

/-- Animation state enumeration (AnimationState, animationController.js lines 11-15). -/
inductive AnimationState where
  | idle
  | walk
  | run
deriving DecidableEq

/-- WALK_SPEED_THRESHOLD (animationController.js line 19). -/
def WALK_SPEED_THRESHOLD : ℚ := 0.1

/-- RUN_SPEED_THRESHOLD (animationController.js line 20). -/
def RUN_SPEED_THRESHOLD : ℚ := 4.0

/-- MIN_WALK_SPEED_SCALE (animationController.js line 23). -/
def MIN_WALK_SPEED_SCALE : ℚ := 0.8

/-- MAX_WALK_SPEED_SCALE (animationController.js line 24). -/
def MAX_WALK_SPEED_SCALE : ℚ := 1.3

/-- WALK_SPEED_DIVISOR (animationController.js line 25). -/
def WALK_SPEED_DIVISOR : ℚ := 2.0

/-- MAX_RUN_SPEED_SCALE (animationController.js line 26). -/
def MAX_RUN_SPEED_SCALE : ℚ := 1.5

/-- The target locomotion state computed by AnimationController.updateFromSpeed
(animationController.js lines 284-298). -/
def targetStateForSpeed (speed : ℚ) : AnimationState :=
  if speed > WALK_SPEED_THRESHOLD then
    if speed > RUN_SPEED_THRESHOLD then AnimationState.run else AnimationState.walk
  else AnimationState.idle

/-- The animation playback rate computed by AnimationController.updateFromSpeed
(animationController.js lines 284-298): Math.min for run, Math.max of Math.min
for walk, default 1.0 for idle. -/
def animationSpeedForSpeed (speed : ℚ) : ℚ :=
  if speed > WALK_SPEED_THRESHOLD then
    if speed > RUN_SPEED_THRESHOLD then
      min MAX_RUN_SPEED_SCALE (speed / RUN_SPEED_THRESHOLD)
    else
      max MIN_WALK_SPEED_SCALE (min MAX_WALK_SPEED_SCALE (speed / WALK_SPEED_DIVISOR))
  else 1.0

/-- THREE.MathUtils.clamp(value, min, max) = Math.max(min, Math.min(max, value)). -/
def mathClamp (value lo hi : ℚ) : ℚ := max lo (min hi value)

/-- C2: the locomotion state chosen by updateFromSpeed is a pure function of
speed: speed at most 0.1 gives Idle, above 0.1 up to and including 4.0 gives
Walk, and above 4.0 gives Run, with both boundaries as stated. -/
theorem locomotion_state_pure_function_of_speed (s : ℚ) :
    (s ≤ 0.1 → targetStateForSpeed s = AnimationState.idle) ∧
    (0.1 < s → s ≤ 4.0 → targetStateForSpeed s = AnimationState.walk) ∧
    (4.0 < s → targetStateForSpeed s = AnimationState.run) := by
  unfold targetStateForSpeed WALK_SPEED_THRESHOLD RUN_SPEED_THRESHOLD
  refine ⟨fun h => ?_, fun h1 h2 => ?_, fun h => ?_⟩
  · rw [if_neg (by linarith)]
  · rw [if_pos (by linarith), if_neg (by linarith)]
  · rw [if_pos (by linarith), if_pos (by linarith)]

/-- Witness for C2 at concrete speeds 0.05, 2 and 5. -/
theorem locomotion_state_pure_function_of_speed_witness :
    targetStateForSpeed 0.05 = AnimationState.idle ∧
    targetStateForSpeed 2 = AnimationState.walk ∧
    targetStateForSpeed 5 = AnimationState.run :=
  ⟨(locomotion_state_pure_function_of_speed 0.05).1 (by norm_num),
   (locomotion_state_pure_function_of_speed 2).2.1 (by norm_num) (by norm_num),
   (locomotion_state_pure_function_of_speed 5).2.2 (by norm_num)⟩

/-- C5: the playback rate set on the current action is
clamp(speed / 2.0, 0.8, 1.3) in the Walk state, hence within [0.8, 1.3];
min(1.5, speed / 4.0) in the Run state, hence within (0, 1.5]; and exactly
1.0 in the Idle state. -/
theorem playback_rate_formulas (s : ℚ) :
    (targetStateForSpeed s = AnimationState.walk →
      animationSpeedForSpeed s = mathClamp (s / 2.0) 0.8 1.3 ∧
      0.8 ≤ animationSpeedForSpeed s ∧ animationSpeedForSpeed s ≤ 1.3) ∧
    (targetStateForSpeed s = AnimationState.run →
      animationSpeedForSpeed s = min 1.5 (s / 4.0) ∧
      0 < animationSpeedForSpeed s ∧ animationSpeedForSpeed s ≤ 1.5) ∧
    (targetStateForSpeed s = AnimationState.idle → animationSpeedForSpeed s = 1.0) := by
  unfold targetStateForSpeed animationSpeedForSpeed mathClamp
  unfold WALK_SPEED_THRESHOLD RUN_SPEED_THRESHOLD MIN_WALK_SPEED_SCALE
    MAX_WALK_SPEED_SCALE WALK_SPEED_DIVISOR MAX_RUN_SPEED_SCALE
  split_ifs with h1 h2
  · -- run branch
    refine ⟨fun h => by simp at h, fun _ => ⟨rfl, ?_, min_le_left _ _⟩, fun h => by simp at h⟩
    have hq : (0 : ℚ) < s / 4.0 := by linarith
    exact lt_min (by norm_num) hq
  · -- walk branch
    refine ⟨fun _ => ⟨rfl, le_max_left _ _, ?_⟩, fun h => by simp at h, fun h => by simp at h⟩
    have hms : min (1.3:ℚ) (s / 2.0) ≤ 1.3 := min_le_left _ _
    exact max_le (by norm_num) hms
  · -- idle branch
    exact ⟨fun h => by simp at h, fun h => by simp at h, fun _ => rfl⟩

/-- Witness for C5 at concrete speeds 1 (walk), 5 (run) and 0.05 (idle). -/
theorem playback_rate_formulas_witness :
    (animationSpeedForSpeed 1 = mathClamp (1 / 2.0) 0.8 1.3 ∧
      0.8 ≤ animationSpeedForSpeed 1 ∧ animationSpeedForSpeed 1 ≤ 1.3) ∧
    (animationSpeedForSpeed 5 = min 1.5 (5 / 4.0) ∧
      0 < animationSpeedForSpeed 5 ∧ animationSpeedForSpeed 5 ≤ 1.5) ∧
    animationSpeedForSpeed 0.05 = 1.0 :=
  ⟨(playback_rate_formulas 1).1 (by
      norm_num [targetStateForSpeed, WALK_SPEED_THRESHOLD, RUN_SPEED_THRESHOLD]),
   (playback_rate_formulas 5).2.1 (by
      norm_num [targetStateForSpeed, WALK_SPEED_THRESHOLD, RUN_SPEED_THRESHOLD]),
   (playback_rate_formulas 0.05).2.2 (by
      norm_num [targetStateForSpeed, WALK_SPEED_THRESHOLD, RUN_SPEED_THRESHOLD])⟩

/-- One PlaybackAction bound to the mixer.  The playback fields mirror the
mutable action settings; the four counters record how many times fadeOut,
fadeIn, reset and play have been issued on the action, so that a frame in
which none of them is triggered is visible in the state. -/
structure ActionRec where
  weight : ℚ
  timeScale : ℚ
  loopRepeat : Bool
  clampWhenFinished : Bool
  time : ℚ
  playing : Bool
  fadeOutCount : ℕ
  fadeInCount : ℕ
  resetCount : ℕ
  playCount : ℕ
deriving DecidableEq

/-- action.fadeOut(duration): schedules the weight fade of the old action;
recorded by its counter (the weight itself ramps across later mixer steps). -/
def fadeOutAction (a : ActionRec) : ActionRec :=
  { a with fadeOutCount := a.fadeOutCount + 1 }

/-- action.fadeIn(duration): starts the new action at weight zero and ramps
it in, so it moves the weight immediately. -/
def fadeInAction (a : ActionRec) : ActionRec :=
  { a with weight := 0, fadeInCount := a.fadeInCount + 1 }

/-- action.reset(): rewinds the action time. -/
def resetAction (a : ActionRec) : ActionRec :=
  { a with time := 0, resetCount := a.resetCount + 1 }

/-- action.play(). -/
def playAction (a : ActionRec) : ActionRec :=
  { a with playing := true, playCount := a.playCount + 1 }

/-- action.setEffectiveTimeScale(speed). -/
def setEffectiveTimeScale (speed : ℚ) (a : ActionRec) : ActionRec :=
  { a with timeScale := speed }

/-- AnimationController.configureAction (animationController.js lines 402-407):
setLoop(LoopRepeat), clampWhenFinished = false, setEffectiveTimeScale(speed). -/
def configureAction (speed : ℚ) (a : ActionRec) : ActionRec :=
  setEffectiveTimeScale speed { a with loopRepeat := true, clampWhenFinished := false }

/-- The animationClips record of the controller (idle / walk / run slots),
each holding the resolved clip id or none. -/
structure ClipMap where
  idle : Option ℕ
  walk : Option ℕ
  run : Option ℕ
deriving DecidableEq

/-- The AnimationController state touched by the locomotion state machine:
clips are identified by natural numbers and the mixer action store maps each
clip id to its cached action (mixer.clipAction returns the same action for
the same clip). -/
structure AnimCtrl where
  hasMixer : Bool
  currentState : AnimationState
  currentAction : Option ℕ
  animationClips : ClipMap
  actions : ℕ → ActionRec

/-- AnimationController.playAnimation (animationController.js lines 412-436).
The clip argument stands for a non-null clip; mixer.clipAction(clip) is the
cached action keyed by the clip id, so two requests with the same clip
resolve to the same action. -/
def playAnimation (clip : ℕ) (state : AnimationState) (speed : ℚ)
    (ctrl : AnimCtrl) : AnimCtrl :=
  if ctrl.hasMixer = false then ctrl else
  let acts1 := Function.update ctrl.actions clip (configureAction speed (ctrl.actions clip))
  let acts2 :=
    match ctrl.currentAction with
    | some old =>
        if old ≠ clip then
          Function.update (Function.update acts1 old (fadeOutAction (acts1 old))) clip
            (playAction (fadeInAction (resetAction (acts1 clip))))
        else acts1
    | none => Function.update acts1 clip (playAction (resetAction (acts1 clip)))
  { ctrl with actions := acts2, currentAction := some clip, currentState := state }

/-- AnimationController.transitionToState (animationController.js lines 373-397):
clip resolution with the fallback chains, then playAnimation, or only a
console warning when no clip resolves. -/
def transitionToState (newState : AnimationState) (speed : ℚ)
    (ctrl : AnimCtrl) : AnimCtrl :=
  let targetClip : Option ℕ :=
    match newState with
    | AnimationState.idle => ctrl.animationClips.idle
    | AnimationState.walk => ctrl.animationClips.walk <|> ctrl.animationClips.idle
    | AnimationState.run =>
        ctrl.animationClips.run <|> ctrl.animationClips.walk <|> ctrl.animationClips.idle
  match targetClip with
  | some clip => playAnimation clip newState speed ctrl
  | none => ctrl

/-- The state-machine slice of AnimationController.updateFromSpeed
(animationController.js lines 275-306): target state and rate from the
speed, then either a transition or a timeScale refresh on the current
action.  The mixer clock advance, procedural offsets and secondary motion
of the same function are modelled separately. -/
def updateFromSpeedCtrl (speed : ℚ) (ctrl : AnimCtrl) : AnimCtrl :=
  if ctrl.hasMixer = false then ctrl else
  let targetState := targetStateForSpeed speed
  let animationSpeed := animationSpeedForSpeed speed
  if ctrl.currentState ≠ targetState then
    transitionToState targetState animationSpeed ctrl
  else
    match ctrl.currentAction with
    | some c =>
        { ctrl with actions :=
            Function.update ctrl.actions c (setEffectiveTimeScale animationSpeed (ctrl.actions c)) }
    | none => ctrl

/-- C8: requesting a crossfade transition to the already-playing action is a
no-op apart from the timeScale refresh: no fadeOut, fadeIn, reset or play is
issued on any action and all action weights are unchanged. -/
theorem same_state_crossfade_noop (ctrl : AnimCtrl) (clip k : ℕ)
    (state : AnimationState) (speed : ℚ)
    (hcur : ctrl.currentAction = some clip) :
    ((playAnimation clip state speed ctrl).actions k).weight = (ctrl.actions k).weight ∧
    ((playAnimation clip state speed ctrl).actions k).fadeOutCount = (ctrl.actions k).fadeOutCount ∧
    ((playAnimation clip state speed ctrl).actions k).fadeInCount = (ctrl.actions k).fadeInCount ∧
    ((playAnimation clip state speed ctrl).actions k).resetCount = (ctrl.actions k).resetCount ∧
    ((playAnimation clip state speed ctrl).actions k).playCount = (ctrl.actions k).playCount ∧
    ((playAnimation clip state speed ctrl).actions k).playing = (ctrl.actions k).playing := by
  unfold playAnimation
  rcases hmix : ctrl.hasMixer with _ | _
  · simp [hmix]
  · simp only [hmix, hcur, Bool.true_eq_false, if_false, ne_eq, not_true_eq_false,
      if_neg, ite_self]
    by_cases hk : k = clip
    · subst hk
      simp [Function.update_same, configureAction, setEffectiveTimeScale]
    · simp [Function.update_noteq hk]

/-- Witness for C8: a concrete controller whose current action is the
requested clip. -/
theorem same_state_crossfade_noop_witness :
    (AnimCtrl.mk true AnimationState.walk (some 0) ⟨none, none, none⟩
        (fun _ => ⟨1, 1, true, false, 0, true, 0, 0, 0, 0⟩)).currentAction = some 0 ∧
    (((playAnimation 0 AnimationState.walk 2
        (AnimCtrl.mk true AnimationState.walk (some 0) ⟨none, none, none⟩
          (fun _ => ⟨1, 1, true, false, 0, true, 0, 0, 0, 0⟩))).actions 0).weight =
      (((AnimCtrl.mk true AnimationState.walk (some 0) ⟨none, none, none⟩
          (fun _ => ⟨1, 1, true, false, 0, true, 0, 0, 0, 0⟩)).actions 0)).weight) :=
  ⟨rfl,
   (same_state_crossfade_noop
      (AnimCtrl.mk true AnimationState.walk (some 0) ⟨none, none, none⟩
        (fun _ => ⟨1, 1, true, false, 0, true, 0, 0, 0, 0⟩)) 0 0
      AnimationState.walk 2 rfl).1⟩

/-- C10: when the target state resolves to no clip at all (its clip and the
whole fallback chain are absent), the transition mutates nothing:
currentState and currentAction keep their old values for arbitrarily many
frames even while speed stays above the Run threshold, and every frame the
update again reaches the transition branch. -/
theorem missing_clip_transition_no_mutation (ctrl : AnimCtrl) (speed : ℚ) (n : ℕ)
    (hmix : ctrl.hasMixer = true)
    (hrun : ctrl.animationClips.run = none)
    (hwalk : ctrl.animationClips.walk = none)
    (hidle : ctrl.animationClips.idle = none)
    (hspeed : 4.0 < speed)
    (hstate : ctrl.currentState ≠ AnimationState.run) :
    targetStateForSpeed speed = AnimationState.run ∧
    updateFromSpeedCtrl speed ctrl = ctrl ∧
    (fun c => updateFromSpeedCtrl speed c)^[n] ctrl = ctrl := by
  have htarget : targetStateForSpeed speed = AnimationState.run := by
    unfold targetStateForSpeed WALK_SPEED_THRESHOLD RUN_SPEED_THRESHOLD
    rw [if_pos (by linarith), if_pos (by linarith)]
  have hstep : updateFromSpeedCtrl speed ctrl = ctrl := by
    unfold updateFromSpeedCtrl
    rw [hmix]
    simp only [Bool.true_eq_false, if_false, htarget]
    rw [if_pos hstate]
    unfold transitionToState
    simp [hrun, hwalk, hidle]
  refine ⟨htarget, hstep, ?_⟩
  induction n with
  | zero => rfl
  | succ m ih => rw [Function.iterate_succ_apply, hstep, ih]

/-- Witness for C10: a concrete mixer-backed controller with no clips,
iterated three frames at speed 5. -/
theorem missing_clip_transition_no_mutation_witness :
    targetStateForSpeed 5 = AnimationState.run ∧
    updateFromSpeedCtrl 5
      (AnimCtrl.mk true AnimationState.idle none ⟨none, none, none⟩
        (fun _ => ⟨1, 1, true, false, 0, true, 0, 0, 0, 0⟩)) =
      (AnimCtrl.mk true AnimationState.idle none ⟨none, none, none⟩
        (fun _ => ⟨1, 1, true, false, 0, true, 0, 0, 0, 0⟩)) ∧
    (fun c => updateFromSpeedCtrl 5 c)^[3]
      (AnimCtrl.mk true AnimationState.idle none ⟨none, none, none⟩
        (fun _ => ⟨1, 1, true, false, 0, true, 0, 0, 0, 0⟩)) =
      (AnimCtrl.mk true AnimationState.idle none ⟨none, none, none⟩
        (fun _ => ⟨1, 1, true, false, 0, true, 0, 0, 0, 0⟩)) :=
  missing_clip_transition_no_mutation
    (AnimCtrl.mk true AnimationState.idle none ⟨none, none, none⟩
      (fun _ => ⟨1, 1, true, false, 0, true, 0, 0, 0, 0⟩)) 5 3
    rfl rfl rfl rfl (by norm_num) (by simp)

/-- A 3D vector with rational components (THREE.Vector3 where only linear
arithmetic is involved). -/
structure Vec3Q where
  x : ℚ
  y : ℚ
  z : ℚ
deriving DecidableEq

/-- Componentwise subtraction (Vector3.subVectors). -/
def vsub (a b : Vec3Q) : Vec3Q := ⟨a.x - b.x, a.y - b.y, a.z - b.z⟩

/-- Componentwise division by a scalar (Vector3.divideScalar). -/
def vdiv (a : Vec3Q) (s : ℚ) : Vec3Q := ⟨a.x / s, a.y / s, a.z / s⟩

/-- The deltaTime substitution at the top of BoneSpring.update and
SecondaryMotionController.updateCharacterMotion (secondaryMotion.js lines
61-64 and 256-259): non-positive or over-0.1 values are replaced by 0.016. -/
def clampDeltaTimeQ (dt : ℚ) : ℚ := if dt ≤ 0 ∨ dt > 0.1 then 0.016 else dt

/-- The position history kept by the Secondary Motion Coordinator. -/
structure MotionState where
  previousPosition : Vec3Q
  previousVelocity : Vec3Q
deriving DecidableEq

/-- SecondaryMotionController.updateCharacterMotion (secondaryMotion.js lines
255-273): velocity and acceleration from the position history, returning the
new history and the two derived vectors. -/
def updateCharacterMotion (deltaTime : ℚ) (position : Vec3Q) (st : MotionState) :
    MotionState × Vec3Q × Vec3Q :=
  let dt := clampDeltaTimeQ deltaTime
  let currentVelocity := vdiv (vsub position st.previousPosition) dt
  let currentAcceleration := vdiv (vsub currentVelocity st.previousVelocity) dt
  (⟨position, currentVelocity⟩, currentVelocity, currentAcceleration)

/-- Rotation axis of a single-axis Euler used by applyProceduralOffsets. -/
inductive RotAxis where
  | x | y | z
deriving DecidableEq

/-- The bones targeted by applyProceduralOffsets. -/
inductive BoneTarget where
  | spine | head | leftShoulder | rightShoulder
deriving DecidableEq

/-- Which of the targeted key bones were found on the skeleton. -/
structure ProcBones where
  spine : Bool
  head : Bool
  leftShoulder : Bool
  rightShoulder : Bool
deriving DecidableEq

/-- The previousRotation history of the procedural layer. -/
structure ProcState where
  previousRotation : ℚ
deriving DecidableEq

/-- An offset applied to one bone: the bone, the rotation axis of the
single-axis Euler passed to setFromEuler, and the rotation angle; the
quaternion built from it is post-multiplied onto the bone rotation. -/
abbrev ProcOffsetEvent := BoneTarget × RotAxis × ℚ

/-- UPPER_BODY_INERTIA_FACTOR (animationController.js line 29). -/
def UPPER_BODY_INERTIA_FACTOR : ℚ := 0.1

/-- HEAD_LAG_FACTOR (animationController.js line 30). -/
def HEAD_LAG_FACTOR : ℚ := 0.15

/-- SHOULDER_LAG_FACTOR (animationController.js line 31). -/
def SHOULDER_LAG_FACTOR : ℚ := 0.08

/-- AnimationController.applyProceduralOffsets (animationController.js lines
328-367): early return when there is no skeleton or deltaTime is outside
(0, 0.1]; otherwise the angular velocity is derived from the model heading
delta, the history is advanced, and each present bone group whose gate
passes receives its offset, in source order. -/
def applyProceduralOffsets (hasSkeleton : Bool) (bones : ProcBones)
    (modelRotationY deltaTime : ℚ) (st : ProcState) :
    ProcState × List ProcOffsetEvent :=
  if hasSkeleton = false ∨ deltaTime ≤ 0 ∨ deltaTime > 0.1 then (st, []) else
  let rotationVelocity := (modelRotationY - st.previousRotation) / deltaTime
  let spineEvents : List ProcOffsetEvent :=
    if bones.spine = true ∧ |rotationVelocity| > 0.1 then
      [(BoneTarget.spine, RotAxis.y, -rotationVelocity * UPPER_BODY_INERTIA_FACTOR * deltaTime)]
    else []
  let headEvents : List ProcOffsetEvent :=
    if bones.head = true ∧ |rotationVelocity| > 0.1 then
      [(BoneTarget.head, RotAxis.y, -rotationVelocity * HEAD_LAG_FACTOR * deltaTime)]
    else []
  let shoulderEvents : List ProcOffsetEvent :=
    if bones.leftShoulder = true ∧ bones.rightShoulder = true ∧ |rotationVelocity| > 0.1 then
      [(BoneTarget.leftShoulder, RotAxis.z, rotationVelocity * SHOULDER_LAG_FACTOR * deltaTime),
       (BoneTarget.rightShoulder, RotAxis.z, -(rotationVelocity * SHOULDER_LAG_FACTOR * deltaTime))]
    else []
  (⟨modelRotationY⟩, spineEvents ++ headEvents ++ shoulderEvents)

/-- C7 counterexample: at angular velocity 6 rad/s the shoulder offsets are
built from a Z-axis Euler, not a Y-axis one, so the claim that every target
receives a Y-axis rotation fails on the concrete frame prev = 0,
rotation = 0.1, dt = 1/60 with all four bones present. -/
theorem shoulder_offset_axis_counterexample :
    ¬ (∀ e ∈ (applyProceduralOffsets true ⟨true, true, true, true⟩ 0.1 (1/60) ⟨0⟩).2,
        e.2.1 = RotAxis.y) := by
  intro h
  have hev : (BoneTarget.leftShoulder, RotAxis.z,
      (6 : ℚ) * SHOULDER_LAG_FACTOR * (1/60)) ∈
      (applyProceduralOffsets true ⟨true, true, true, true⟩ 0.1 (1/60) ⟨0⟩).2 := by
    unfold applyProceduralOffsets
    norm_num
  exact absurd (h _ hev) (by simp)

/-- C7 amended: with a skeleton, all four bones present and deltaTime in
(0, 0.1], let w be the derived angular velocity; when |w| > 0.1 the spine
receives a Y-axis rotation by -w * 0.1 * dt, the head a Y-axis rotation by
-w * 0.15 * dt, and the shoulders Z-axis rotations by w * 0.08 * dt on the
left and the opposite angle on the right; when |w| <= 0.1 no offset is
applied at all. -/
theorem procedural_offsets_amended (prev rot dt : ℚ)
    (h1 : 0 < dt) (h2 : dt ≤ 0.1) :
    (0.1 < |(rot - prev) / dt| →
      (applyProceduralOffsets true ⟨true, true, true, true⟩ rot dt ⟨prev⟩).2 =
        [(BoneTarget.spine, RotAxis.y, -((rot - prev) / dt) * 0.1 * dt),
         (BoneTarget.head, RotAxis.y, -((rot - prev) / dt) * 0.15 * dt),
         (BoneTarget.leftShoulder, RotAxis.z, ((rot - prev) / dt) * 0.08 * dt),
         (BoneTarget.rightShoulder, RotAxis.z, -(((rot - prev) / dt) * 0.08 * dt))]) ∧
    (|(rot - prev) / dt| ≤ 0.1 →
      (applyProceduralOffsets true ⟨true, true, true, true⟩ rot dt ⟨prev⟩).2 = []) := by
  unfold applyProceduralOffsets
  rw [if_neg (by push_neg; exact ⟨by simp, by linarith, by linarith⟩)]
  unfold UPPER_BODY_INERTIA_FACTOR HEAD_LAG_FACTOR SHOULDER_LAG_FACTOR
  dsimp only
  constructor
  · intro hw
    rw [if_pos ⟨rfl, hw⟩, if_pos ⟨rfl, hw⟩, if_pos ⟨rfl, rfl, hw⟩]
    rfl
  · intro hw
    rw [if_neg (fun hc => absurd hc.2 (not_lt.mpr hw)),
      if_neg (fun hc => absurd hc.2 (not_lt.mpr hw)),
      if_neg (fun hc => absurd hc.2.2 (not_lt.mpr hw))]
    rfl

/-- Witness for C7 at the concrete frame prev = 0, rotation = 0.1,
dt = 1/60, where the angular velocity is 6 rad/s. -/
theorem procedural_offsets_amended_witness :
    (0.1 < |((0.1 : ℚ) - 0) / (1/60)| →
      (applyProceduralOffsets true ⟨true, true, true, true⟩ 0.1 (1/60) ⟨0⟩).2 =
        [(BoneTarget.spine, RotAxis.y, -(((0.1 : ℚ) - 0) / (1/60)) * 0.1 * (1/60)),
         (BoneTarget.head, RotAxis.y, -(((0.1 : ℚ) - 0) / (1/60)) * 0.15 * (1/60)),
         (BoneTarget.leftShoulder, RotAxis.z, (((0.1 : ℚ) - 0) / (1/60)) * 0.08 * (1/60)),
         (BoneTarget.rightShoulder, RotAxis.z, -((((0.1 : ℚ) - 0) / (1/60)) * 0.08 * (1/60)))]) ∧
    (|((0.1 : ℚ) - 0) / (1/60)| ≤ 0.1 →
      (applyProceduralOffsets true ⟨true, true, true, true⟩ 0.1 (1/60) ⟨0⟩).2 = []) :=
  procedural_offsets_amended 0 0.1 (1/60) (by norm_num) (by norm_num)

noncomputable section

/-- 3D real vector space for the spring displacement dynamics, where the
source takes Euclidean lengths. -/
abbrev E3 := EuclideanSpace ℝ (Fin 3)

/-- The deltaTime substitution of BoneSpring.update (secondaryMotion.js lines
61-64), real-valued. -/
def clampDeltaTime (dt : ℝ) : ℝ := if dt ≤ 0 ∨ dt > 0.1 then 0.016 else dt

/-- Vector3.normalize: divide by the length, or by 1 when the length is 0. -/
def vecNormalize (v : E3) : E3 := if ‖v‖ = 0 then v else ‖v‖⁻¹ • v

/-- The stiffness/damping/maxDisplacement profile of a BoneSpring. -/
structure SpringConfig where
  stiffness : ℝ
  damping : ℝ
  maxDisplacement : ℝ

/-- The hair profile (secondaryMotion.js lines 197-203). -/
def hairSpringConfig : SpringConfig := ⟨12.0, 0.7, 0.4⟩

/-- The cloth profile (secondaryMotion.js lines 205-211). -/
def clothSpringConfig : SpringConfig := ⟨10.0, 0.6, 0.5⟩

/-- The upper-body profile (secondaryMotion.js lines 213-219). -/
def upperBodySpringConfig : SpringConfig := ⟨20.0, 0.9, 0.15⟩

/-- The module-level defaults SPRING_STIFFNESS, SPRING_DAMPING,
MAX_DISPLACEMENT (secondaryMotion.js lines 10-12). -/
def defaultSpringConfig : SpringConfig := ⟨15.0, 0.8, 0.3⟩

/-- VELOCITY_SCALE (secondaryMotion.js line 14). -/
def VELOCITY_SCALE : ℝ := 0.5

/-- ACCELERATION_SCALE (secondaryMotion.js line 15). -/
def ACCELERATION_SCALE : ℝ := 0.3

/-- The displacement/velocity state of one BoneSpring. -/
structure SpringState where
  velocity : E3
  displacement : E3

/-- BoneSpring.update (secondaryMotion.js lines 60-102): deltaTime
substitution, driving force from character motion, spring-damper force,
semi-implicit Euler step, then the displacement clamp with the velocity
halving.  The pose application of applyDisplacement does not touch this
state and is modelled with the frame pipeline below. -/
def springUpdate (cfg : SpringConfig) (deltaTime : ℝ)
    (characterVelocity characterAcceleration : E3) (s : SpringState) : SpringState :=
  let dt := clampDeltaTime deltaTime
  let force := (-VELOCITY_SCALE) • characterVelocity +
    (-ACCELERATION_SCALE) • characterAcceleration +
    (-cfg.stiffness) • s.displacement + (-cfg.damping) • s.velocity
  let velocity := s.velocity + dt • force
  let displacement := s.displacement + dt • velocity
  if ‖displacement‖ > cfg.maxDisplacement then
    ⟨(0.5 : ℝ) • velocity, cfg.maxDisplacement • vecNormalize displacement⟩
  else
    ⟨velocity, displacement⟩

/-- The state a BoneSpring is constructed with (secondaryMotion.js lines 43-44). -/
def springInitial : SpringState := ⟨0, 0⟩

/-- A whole sequence of update calls, each with its own deltaTime, character
velocity and character acceleration. -/
def springRun (cfg : SpringConfig) (inputs : List (ℝ × E3 × E3)) : SpringState :=
  inputs.foldl (fun s p => springUpdate cfg p.1 p.2.1 p.2.2 s) springInitial

lemma springUpdate_displacement_le (cfg : SpringConfig)
    (hmax : 0 ≤ cfg.maxDisplacement) (dt : ℝ) (v a : E3) (s : SpringState) :
    ‖(springUpdate cfg dt v a s).displacement‖ ≤ cfg.maxDisplacement := by
  unfold springUpdate
  dsimp only
  split_ifs with h
  · have hpos : 0 < ‖s.displacement + clampDeltaTime dt •
        (s.velocity + clampDeltaTime dt •
          ((-VELOCITY_SCALE) • v + (-ACCELERATION_SCALE) • a +
            (-cfg.stiffness) • s.displacement + (-cfg.damping) • s.velocity))‖ :=
      lt_of_le_of_lt hmax h
    rw [vecNormalize, if_neg (ne_of_gt hpos)]
    rw [norm_smul, norm_smul, norm_inv, norm_norm,
      inv_mul_cancel₀ (ne_of_gt hpos), mul_one, Real.norm_eq_abs,
      abs_of_nonneg hmax]
  · exact le_of_not_lt h

lemma springRun_foldl_le (cfg : SpringConfig) (hmax : 0 ≤ cfg.maxDisplacement)
    (inputs : List (ℝ × E3 × E3)) (s : SpringState)
    (hs : ‖s.displacement‖ ≤ cfg.maxDisplacement) :
    ‖(inputs.foldl (fun s p => springUpdate cfg p.1 p.2.1 p.2.2 s) s).displacement‖ ≤
      cfg.maxDisplacement := by
  induction inputs generalizing s with
  | nil => exact hs
  | cons p t ih =>
      exact ih _ (springUpdate_displacement_le cfg hmax p.1 p.2.1 p.2.2 s)

/-- C1: for every sequence of update calls with arbitrary deltaTime,
character velocity and character acceleration inputs, the displacement
magnitude after each update stays within the configured maximum of the
profile: 0.4 for hair, 0.5 for cloth, 0.15 for upper-body, 0.3 default.
Every prefix of a sequence is itself a sequence, so the bound holds after
each intermediate update as well. -/
theorem spring_displacement_never_exceeds_max (inputs : List (ℝ × E3 × E3)) :
    ‖(springRun hairSpringConfig inputs).displacement‖ ≤ 0.4 ∧
    ‖(springRun clothSpringConfig inputs).displacement‖ ≤ 0.5 ∧
    ‖(springRun upperBodySpringConfig inputs).displacement‖ ≤ 0.15 ∧
    ‖(springRun defaultSpringConfig inputs).displacement‖ ≤ 0.3 := by
  have h0 : ‖springInitial.displacement‖ = 0 := by
    simp [springInitial]
  refine ⟨?_, ?_, ?_, ?_⟩ <;>
    · apply springRun_foldl_le _ (by norm_num [hairSpringConfig, clothSpringConfig,
        upperBodySpringConfig, defaultSpringConfig])
      rw [h0]
      norm_num [hairSpringConfig, clothSpringConfig,
        upperBodySpringConfig, defaultSpringConfig]

lemma clampDeltaTimeQ_bad (dt : ℚ) (h : dt ≤ 0 ∨ 0.1 < dt) :
    clampDeltaTimeQ dt = 0.016 := by
  unfold clampDeltaTimeQ
  rw [if_pos h]

lemma clampDeltaTimeQ_of_bad_eq (dt : ℚ) (h : dt ≤ 0 ∨ 0.1 < dt) :
    clampDeltaTimeQ dt = clampDeltaTimeQ 0.016 := by
  rw [clampDeltaTimeQ_bad dt h]
  unfold clampDeltaTimeQ
  rw [if_neg (by norm_num)]

lemma clampDeltaTime_bad (dt : ℝ) (h : dt ≤ 0 ∨ 0.1 < dt) :
    clampDeltaTime dt = 0.016 := by
  unfold clampDeltaTime
  rw [if_pos h]

lemma clampDeltaTime_of_bad_eq (dt : ℝ) (h : dt ≤ 0 ∨ 0.1 < dt) :
    clampDeltaTime dt = clampDeltaTime 0.016 := by
  rw [clampDeltaTime_bad dt h]
  unfold clampDeltaTime
  rw [if_neg (by norm_num)]

/-- C3 counterexample: the fallback step is 0.016 s, not 1/60 s, and the
Procedural Offset Layer does not substitute any fallback at all: at
deltaTime 0 it skips the frame (no offsets, history untouched), which is
observably different from running it with a 1/60 s step. -/
theorem dt_fallback_counterexample :
    clampDeltaTimeQ 0 ≠ 1/60 ∧
    applyProceduralOffsets true ⟨true, true, true, true⟩ 0.1 0 ⟨0⟩ ≠
      applyProceduralOffsets true ⟨true, true, true, true⟩ 0.1 (1/60) ⟨0⟩ := by
  constructor
  · rw [clampDeltaTimeQ_bad 0 (Or.inl le_rfl)]
    norm_num
  · intro h
    have h1 := congrArg (fun p => p.1.previousRotation) h
    have hL : (applyProceduralOffsets true ⟨true, true, true, true⟩
        0.1 0 ⟨0⟩).1.previousRotation = 0 := by
      unfold applyProceduralOffsets
      rw [if_pos (Or.inr (Or.inl le_rfl))]
    have hR : (applyProceduralOffsets true ⟨true, true, true, true⟩
        0.1 (1/60) ⟨0⟩).1.previousRotation = 0.1 := by
      unfold applyProceduralOffsets
      rw [if_neg (by push_neg; exact ⟨by simp, by norm_num, by norm_num⟩)]
    simp only [hL, hR] at h1
    norm_num at h1

/-- C3 amended: for deltaTime 0, negative, or above 0.1 s, the Spring-Damper
Unit and the Secondary Motion Coordinator kinematics substitute the 0.016 s
(roughly 1/60 s) fallback, so their behaviour equals the one at an exact
0.016 s step and the effective step stays in (0, 0.1]; the Procedural Offset
Layer instead skips the frame entirely, applying no offsets and leaving its
rotation history unchanged. -/
theorem dt_fallback_policy_amended
    (dtQ : ℚ) (dtR : ℝ) (pos : Vec3Q) (mst : MotionState)
    (bones : ProcBones) (rotY : ℚ) (pst : ProcState)
    (cfg : SpringConfig) (v a : E3) (s : SpringState)
    (hq : dtQ ≤ 0 ∨ 0.1 < dtQ) (hr : dtR ≤ 0 ∨ 0.1 < dtR) :
    clampDeltaTimeQ dtQ = 0.016 ∧
    (0 < clampDeltaTimeQ dtQ ∧ clampDeltaTimeQ dtQ ≤ 0.1) ∧
    updateCharacterMotion dtQ pos mst = updateCharacterMotion 0.016 pos mst ∧
    applyProceduralOffsets true bones rotY dtQ pst = (pst, []) ∧
    clampDeltaTime dtR = 0.016 ∧
    springUpdate cfg dtR v a s = springUpdate cfg 0.016 v a s := by
  refine ⟨clampDeltaTimeQ_bad dtQ hq, ?_, ?_, ?_, clampDeltaTime_bad dtR hr, ?_⟩
  · rw [clampDeltaTimeQ_bad dtQ hq]
    norm_num
  · unfold updateCharacterMotion
    rw [clampDeltaTimeQ_of_bad_eq dtQ hq]
  · unfold applyProceduralOffsets
    rw [if_pos (Or.inr hq)]
  · unfold springUpdate
    rw [clampDeltaTime_of_bad_eq dtR hr]

/-- Witness for C3 at deltaTime 0 (rational side) and -1 (real side). -/
theorem dt_fallback_policy_amended_witness :
    clampDeltaTimeQ 0 = 0.016 ∧
    (0 < clampDeltaTimeQ 0 ∧ clampDeltaTimeQ 0 ≤ 0.1) ∧
    updateCharacterMotion 0 ⟨1, 2, 3⟩ ⟨⟨0, 0, 0⟩, ⟨0, 0, 0⟩⟩ =
      updateCharacterMotion 0.016 ⟨1, 2, 3⟩ ⟨⟨0, 0, 0⟩, ⟨0, 0, 0⟩⟩ ∧
    applyProceduralOffsets true ⟨true, true, true, true⟩ 2 0 ⟨0⟩ = (⟨0⟩, []) ∧
    clampDeltaTime (-1) = 0.016 ∧
    springUpdate defaultSpringConfig (-1) 0 0 springInitial =
      springUpdate defaultSpringConfig 0.016 0 0 springInitial :=
  dt_fallback_policy_amended 0 (-1) ⟨1, 2, 3⟩ ⟨⟨0, 0, 0⟩, ⟨0, 0, 0⟩⟩
    ⟨true, true, true, true⟩ 2 ⟨0⟩ defaultSpringConfig 0 0 springInitial
    (Or.inl le_rfl) (Or.inl (by norm_num))

end

noncomputable section

/-- Quaternion.setFromEuler for the Euler (0, angle, 0) used by the spine and
head offsets: x = 0, y = sin(angle/2), z = 0, w = cos(angle/2); Mathlib
quaternion component order is (re, imI, imJ, imK) = (w, x, y, z). -/
def yRotQuat (angle : ℝ) : Quaternion ℝ :=
  ⟨Real.cos (angle / 2), 0, Real.sin (angle / 2), 0⟩

/-- Quaternion.setFromAxisAngle: w = cos(angle/2), vector part = axis
scaled by sin(angle/2). -/
def axisAngleQuat (axis : E3) (angle : ℝ) : Quaternion ℝ :=
  ⟨Real.cos (angle / 2), axis 0 * Real.sin (angle / 2),
    axis 1 * Real.sin (angle / 2), axis 2 * Real.sin (angle / 2)⟩

/-- The per-frame state of one spine bone that is both a procedural offset
target and an upper-body spring bone: its local rotation, the rest rotation
snapshot held by its BoneSpring, and the spring state. -/
structure SpineBoneFrame where
  boneRotation : Quaternion ℝ
  restRotation : Quaternion ℝ
  spring : SpringState

/-- The mixer advance (this.mixer.update(deltaTime) at animationController.js
line 309) as seen by one bone: the external mixer writes the animated pose
for the frame onto the bone rotation. -/
def mixerWritePose (pose : Quaternion ℝ) (st : SpineBoneFrame) : SpineBoneFrame :=
  { st with boneRotation := pose }

/-- SecondaryMotionController.onAnimationUpdate /
BoneSpring.updateOriginalRotation (secondaryMotion.js lines 139-143 and
278-282): the spring re-snapshots the current bone rotation as the rest
reference. -/
def snapshotRestRotation (st : SpineBoneFrame) : SpineBoneFrame :=
  { st with restRotation := st.boneRotation }

/-- UPPER_BODY_INERTIA_FACTOR (animationController.js line 29), real-valued. -/
def UPPER_BODY_INERTIA_FACTOR_R : ℝ := 0.1

/-- The spine branch of applyProceduralOffsets (animationController.js lines
328-344) for this bone, with the angular velocity passed as a parameter:
nothing happens when deltaTime is outside (0, 0.1] or the angular velocity
gate fails; otherwise the Y-rotation by -rotationVelocity * 0.1 * deltaTime
is post-multiplied onto the bone rotation. -/
def proceduralSpineOffset (rotationVelocity deltaTime : ℝ)
    (st : SpineBoneFrame) : SpineBoneFrame :=
  if deltaTime ≤ 0 ∨ deltaTime > 0.1 then st
  else if |rotationVelocity| > 0.1 then
    { st with boneRotation :=
        st.boneRotation * yRotQuat (-rotationVelocity * UPPER_BODY_INERTIA_FACTOR_R * deltaTime) }
  else st

/-- BoneSpring.update followed by applyDisplacement (secondaryMotion.js lines
60-123) on this bone, with the upper-body profile: the spring state advances,
then the bone rotation is set to restRotation times the axis-angle rotation
of the displacement when its length exceeds 0.001, and to restRotation
exactly otherwise. -/
def springIntegrateBone (deltaTime : ℝ) (v a : E3) (st : SpineBoneFrame) : SpineBoneFrame :=
  let sp := springUpdate upperBodySpringConfig deltaTime v a st.spring
  let angle := ‖sp.displacement‖
  { boneRotation :=
      if angle > 0.001 then
        st.restRotation * axisAngleQuat (vecNormalize sp.displacement) angle
      else st.restRotation,
    restRotation := st.restRotation,
    spring := sp }

/-- The per-frame order of AnimationController.updateFromSpeed lines 308-322
as it acts on this bone: (1) mixer advance, (2) secondary-motion rest
snapshot, (3) procedural offsets, (4) spring integration. -/
def updateFromSpeedFrame (pose : Quaternion ℝ) (rotationVelocity deltaTime : ℝ)
    (v a : E3) (st : SpineBoneFrame) : SpineBoneFrame :=
  springIntegrateBone deltaTime v a
    (proceduralSpineOffset rotationVelocity deltaTime
      (snapshotRestRotation (mixerWritePose pose st)))

/-- The starting state for the C4 counterexample: identity rotations and a
spring at rest. -/
def frameCounterexampleStart : SpineBoneFrame := ⟨1, 1, springInitial⟩

/-- C4 counterexample: on the concrete frame with identity mixer pose,
angular velocity 1 rad/s, deltaTime 1/60 and a spring at rest, the rest
reference used by the spring integration is the identity (the post-mixer
rotation), while the bone rotation after the procedural layer has written is
a real Y-rotation; the two differ, so the snapshot is not taken after the
Procedural Offset Layer as claimed. -/
theorem rest_snapshot_counterexample :
    (updateFromSpeedFrame 1 1 (1/60) 0 0 frameCounterexampleStart).restRotation ≠
      (proceduralSpineOffset 1 (1/60)
        (snapshotRestRotation (mixerWritePose 1 frameCounterexampleStart))).boneRotation := by
  have hrest : (updateFromSpeedFrame 1 1 (1/60) 0 0 frameCounterexampleStart).restRotation =
      (1 : Quaternion ℝ) := by
    unfold updateFromSpeedFrame springIntegrateBone proceduralSpineOffset
      snapshotRestRotation mixerWritePose frameCounterexampleStart
    split_ifs <;> rfl
  have hgate : ¬ ((1:ℝ)/60 ≤ 0 ∨ (1:ℝ)/60 > 0.1) := by
    push_neg
    constructor <;> norm_num
  have hbone : (proceduralSpineOffset 1 (1/60)
      (snapshotRestRotation (mixerWritePose 1 frameCounterexampleStart))).boneRotation =
      yRotQuat (-1 * UPPER_BODY_INERTIA_FACTOR_R * (1/60)) := by
    unfold proceduralSpineOffset snapshotRestRotation mixerWritePose frameCounterexampleStart
    rw [if_neg hgate, if_pos (by norm_num)]
    exact one_mul _
  rw [hrest, hbone]
  intro h
  have himJ := congrArg QuaternionAlgebra.imJ h
  rw [Quaternion.one_imJ] at himJ
  unfold yRotQuat at himJ
  have harg : (-1 * UPPER_BODY_INERTIA_FACTOR_R * ((1:ℝ)/60)) / 2 = -(1/1200) := by
    unfold UPPER_BODY_INERTIA_FACTOR_R
    norm_num
  rw [harg] at himJ
  have hpos : (0:ℝ) < Real.sin (1/1200) :=
    Real.sin_pos_of_pos_of_lt_pi (by norm_num)
      (lt_trans (by norm_num) Real.pi_gt_three)
  rw [Real.sin_neg] at himJ
  have := himJ.symm
  simp only [neg_eq_zero] at this
  exact absurd this (ne_of_gt hpos)

/-- C4 amended: in every frame the Spring-Damper Unit re-snapshots the bone
rotation after the base animation mixer advance but before the Procedural
Offset Layer runs: the rest reference used by the spring integration always
equals the mixer-written pose, for all inputs. -/
theorem rest_snapshot_after_mixer_before_procedural (pose : Quaternion ℝ)
    (rotationVelocity deltaTime : ℝ) (v a : E3) (st : SpineBoneFrame) :
    (updateFromSpeedFrame pose rotationVelocity deltaTime v a st).restRotation = pose := by
  unfold updateFromSpeedFrame springIntegrateBone proceduralSpineOffset
    snapshotRestRotation mixerWritePose
  split_ifs <;> rfl

end

/-- THREE.MathUtils.lerp(x, y, t) = x + (y - x) * t. -/
def mathLerp (x y t : ℚ) : ℚ := x + (y - x) * t

/-- WALK_SPEED (main.js line 434). -/
def WALK_SPEED : ℚ := 2.0

/-- RUN_SPEED (main.js line 435). -/
def RUN_SPEED : ℚ := 5.0

/-- MOVEMENT_ACCELERATION (main.js line 438). -/
def MOVEMENT_ACCELERATION : ℚ := 8.0

/-- MOVEMENT_DECELERATION (main.js line 439). -/
def MOVEMENT_DECELERATION : ℚ := 12.0

/-- The currentSpeed integration of CharacterController.update (main.js lines
465-519): while moving, lerp toward the sprint or walk target speed with the
acceleration rate; otherwise lerp toward 0 with the deceleration rate and
snap below 0.01 to exactly 0. -/
def characterSpeedStep (isMoving isSprinting : Bool) (deltaTime currentSpeed : ℚ) : ℚ :=
  if isMoving = true then
    let targetSpeed := if isSprinting = true then RUN_SPEED else WALK_SPEED
    mathLerp currentSpeed targetSpeed (MOVEMENT_ACCELERATION * deltaTime)
  else
    let s := mathLerp currentSpeed 0 (MOVEMENT_DECELERATION * deltaTime)
    if s < 0.01 then 0 else s

/-- The C9 scenario: constant input direction (1, 0), so isMoving holds every
frame, sprint off, fixed deltaTime 1/60, starting speed 0. -/
def walkSpeedSeq : ℕ → ℚ
  | 0 => 0
  | n + 1 => characterSpeedStep true false (1/60) (walkSpeedSeq n)

lemma characterSpeedStep_walk (s : ℚ) :
    characterSpeedStep true false (1/60) s = s + (2 - s) * (2/15) := by
  unfold characterSpeedStep mathLerp MOVEMENT_ACCELERATION WALK_SPEED
  norm_num

lemma walkSpeedSeq_closed (n : ℕ) :
    walkSpeedSeq n = 2 - 2 * (13/15 : ℚ) ^ n := by
  induction n with
  | zero => simp [walkSpeedSeq]
  | succ m ih =>
      rw [walkSpeedSeq, characterSpeedStep_walk, ih, pow_succ]
      ring

lemma walkSpeedSeq_gap (n : ℕ) : 2 - walkSpeedSeq n = 2 * (13/15 : ℚ) ^ n := by
  rw [walkSpeedSeq_closed]
  ring

/-- C9: with constant input direction (1,0), sprint off, initial speed 0 and
fixed deltaTime 1/60, the speed sequence is monotonically non-decreasing,
never exceeds the walk speed 2.0, and converges to 2.0: for every positive
epsilon some frame index exists past which the gap to 2.0 stays below it. -/
theorem walk_speed_monotone_bounded_converges (n : ℕ) (ε : ℚ) (hε : 0 < ε) :
    walkSpeedSeq n ≤ walkSpeedSeq (n + 1) ∧
    walkSpeedSeq n ≤ 2 ∧
    ∃ N : ℕ, ∀ m : ℕ, N ≤ m → 2 - walkSpeedSeq m < ε := by
  have hqpow : ∀ m : ℕ, (0:ℚ) ≤ (13/15 : ℚ) ^ m :=
    fun m => pow_nonneg (by norm_num) m
  refine ⟨?_, ?_, ?_⟩
  · rw [walkSpeedSeq_closed n, walkSpeedSeq_closed (n + 1), pow_succ]
    have := hqpow n
    nlinarith
  · rw [walkSpeedSeq_closed n]
    have := hqpow n
    linarith
  · refine ⟨Nat.ceil (13/ε) + 1, fun m hm => ?_⟩
    have hm1 : 1 ≤ m := le_trans (Nat.le_add_left 1 _) hm
    have hmq : (13/ε : ℚ) < (m : ℚ) := by
      have hceil : (13/ε : ℚ) ≤ (Nat.ceil (13/ε) : ℚ) := Nat.le_ceil _
      have hlt : (Nat.ceil (13/ε) : ℚ) < (m : ℚ) := by
        have : Nat.ceil (13/ε) < m := lt_of_lt_of_le (Nat.lt_succ_self _) hm
        exact_mod_cast this
      linarith
    have hmpos : (0:ℚ) < (m : ℚ) := by
      exact_mod_cast Nat.pos_of_ne_zero (by omega)
    -- Bernoulli: (15/13)^m dominates 1 + m * (2/13), hence (13/15)^m ≤ 13/(2m)
    have hbern : 1 + (m : ℚ) * (2/13) ≤ (1 + 2/13) ^ m :=
      one_add_mul_le_pow (by norm_num) m
    have hgrow : (m : ℚ) * (2/13) ≤ (15/13 : ℚ) ^ m := by
      have h1513 : (1 + 2/13 : ℚ) = 15/13 := by norm_num
      rw [h1513] at hbern
      linarith
    have hmul : (0:ℚ) < (m : ℚ) * (2/13) := by positivity
    have hinv : ((15/13 : ℚ) ^ m)⁻¹ ≤ ((m : ℚ) * (2/13))⁻¹ :=
      inv_anti₀ hmul hgrow
    have hq : (13/15 : ℚ) ^ m = ((15/13 : ℚ) ^ m)⁻¹ := by
      rw [← inv_pow]
      norm_num
    have hbound : (13/15 : ℚ) ^ m ≤ 13 / (2 * (m : ℚ)) := by
      rw [hq]
      calc ((15/13 : ℚ) ^ m)⁻¹ ≤ ((m : ℚ) * (2/13))⁻¹ := hinv
        _ = 13 / (2 * (m : ℚ)) := by
            rw [inv_eq_one_div]
            ring
    have hfin : (13 : ℚ) / (m : ℚ) < ε := by
      rw [div_lt_iff₀ hmpos]
      have := mul_lt_mul_of_pos_left hmq hε
      rw [mul_div_cancel₀ _ (ne_of_gt hε)] at this
      linarith [this]
    rw [walkSpeedSeq_gap]
    calc 2 * (13/15 : ℚ) ^ m ≤ 2 * (13 / (2 * (m : ℚ))) := by
          have := hbound
          nlinarith [hqpow m]
      _ = 13 / (m : ℚ) := by
          field_simp
          ring
      _ < ε := hfin

/-- Witness for C9 at n = 0 and epsilon = 1. -/
theorem walk_speed_monotone_bounded_converges_witness :
    walkSpeedSeq 0 ≤ walkSpeedSeq 1 ∧
    walkSpeedSeq 0 ≤ 2 ∧
    ∃ N : ℕ, ∀ m : ℕ, N ≤ m → 2 - walkSpeedSeq m < 1 :=
  walk_speed_monotone_bounded_converges 0 1 (by norm_num)

noncomputable section

/-- Truncation toward zero, as used by the JavaScript remainder operator. -/
def jsTrunc (x : ℝ) : ℤ := if 0 ≤ x then ⌊x⌋ else -⌊-x⌋

/-- The JavaScript remainder a % b: the remainder carries the sign of the
dividend, a - b * trunc(a / b). -/
def jsRem (a b : ℝ) : ℝ := a - b * (jsTrunc (a / b) : ℝ)

/-- CharacterController.shortestAngle (main.js lines 528-533):
((target - current + PI) % (2 PI)) - PI with the JavaScript remainder. -/
def shortestAngle (current target : ℝ) : ℝ :=
  jsRem (target - current + Real.pi) (2 * Real.pi) - Real.pi

/-- THREE.MathUtils.clamp over the reals. -/
def clampR (value lo hi : ℝ) : ℝ := max lo (min hi value)

/-- ROTATION_SPEED (main.js line 436). -/
def ROTATION_SPEED : ℝ := 10.0

/-- ROTATION_SMOOTHING (main.js line 437). -/
def ROTATION_SMOOTHING : ℝ := 0.15

/-- The heading update of CharacterController.update (main.js lines 497-508):
the shortest-angle error is scaled by the smoothing factor, clamped to the
rate cap, and added onto the current rotation. -/
def headingStep (currentRotation targetRotation deltaTime : ℝ) : ℝ :=
  let rotationDelta := shortestAngle currentRotation targetRotation
  let rotationSpeed := ROTATION_SPEED * deltaTime
  let smoothedRotation := rotationDelta * ROTATION_SMOOTHING
  let clampedRotation := clampR smoothedRotation (-rotationSpeed) rotationSpeed
  currentRotation + clampedRotation

lemma jsRem_nonneg_mem (a b : ℝ) (hb : 0 < b) (ha : 0 ≤ a) :
    0 ≤ jsRem a b ∧ jsRem a b < b := by
  have hx : 0 ≤ a / b := div_nonneg ha hb.le
  have key : jsRem a b = b * Int.fract (a / b) := by
    unfold jsRem jsTrunc
    rw [if_pos hx, Int.fract]
    field_simp
  constructor
  · rw [key]
    exact mul_nonneg hb.le (Int.fract_nonneg _)
  · rw [key]
    calc b * Int.fract (a / b) < b * 1 :=
          mul_lt_mul_of_pos_left (Int.fract_lt_one _) hb
      _ = b := mul_one b

lemma jsRem_neg_mem (a b : ℝ) (hb : 0 < b) (ha : a < 0) :
    -b < jsRem a b ∧ jsRem a b ≤ 0 := by
  have hx : ¬ (0 ≤ a / b) := not_le.mpr (div_neg_of_neg_of_pos ha hb)
  have key : jsRem a b = -(b * Int.fract (-(a / b))) := by
    unfold jsRem jsTrunc
    rw [if_neg hx, Int.fract]
    push_cast
    field_simp
    ring
  constructor
  · rw [key]
    have h1 : b * Int.fract (-(a / b)) < b * 1 :=
      mul_lt_mul_of_pos_left (Int.fract_lt_one _) hb
    rw [mul_one] at h1
    linarith
  · rw [key]
    have h2 : 0 ≤ b * Int.fract (-(a / b)) :=
      mul_nonneg hb.le (Int.fract_nonneg _)
    linarith

/-- C6 counterexample: shortestAngle(3, -3) evaluates to -6, which lies
outside (-PI, PI]: the JavaScript remainder keeps the sign of the dividend,
so a negative target - current + PI is not reduced into the claimed range. -/
theorem shortest_angle_not_reduced_counterexample :
    shortestAngle 3 (-3) = -6 ∧
    ¬ (-Real.pi < shortestAngle 3 (-3) ∧ shortestAngle 3 (-3) ≤ Real.pi) := by
  have hpi3 := Real.pi_gt_three
  have hpi315 := Real.pi_lt_d2
  have heq : shortestAngle 3 (-3) = -6 := by
    unfold shortestAngle jsRem jsTrunc
    have ha : (-3 : ℝ) - 3 + Real.pi = Real.pi - 6 := by ring
    rw [ha]
    have hx : ¬ (0 ≤ (Real.pi - 6) / (2 * Real.pi)) := by
      apply not_le.mpr
      exact div_neg_of_neg_of_pos (by linarith) Real.two_pi_pos
    rw [if_neg hx]
    have hneg : -((Real.pi - 6) / (2 * Real.pi)) = (6 - Real.pi) / (2 * Real.pi) := by
      ring
    rw [hneg]
    have hfloor : ⌊(6 - Real.pi) / (2 * Real.pi)⌋ = 0 := by
      rw [Int.floor_eq_zero_iff, Set.mem_Ico]
      constructor
      · exact div_nonneg (by linarith) (le_of_lt Real.two_pi_pos)
      · rw [div_lt_one Real.two_pi_pos]
        linarith
    rw [hfloor]
    push_cast
    ring
  refine ⟨heq, ?_⟩
  rw [heq]
  intro hcon
  linarith [hcon.1]

/-- C6 amended: the computed heading error always lies in (-3 PI, PI), and
is reduced into [-PI, PI) exactly when target - current + PI is nonnegative
(a negative dividend is left un-reduced by the JavaScript remainder); the
per-frame heading change never exceeds 10 * dt in magnitude for dt >= 0;
and the resulting heading is expressible in (-PI, PI] modulo 2 PI. -/
theorem heading_error_and_rate_cap_amended (current target dt : ℝ) (hdt : 0 ≤ dt) :
    (-(3 * Real.pi) < shortestAngle current target ∧
      shortestAngle current target < Real.pi) ∧
    (0 ≤ target - current + Real.pi →
      -Real.pi ≤ shortestAngle current target ∧
      shortestAngle current target < Real.pi) ∧
    |headingStep current target dt - current| ≤ 10 * dt ∧
    (∃ k : ℤ, headingStep current target dt - 2 * Real.pi * (k : ℝ) ∈
      Set.Ioc (-Real.pi) Real.pi) := by
  have hb : (0:ℝ) < 2 * Real.pi := Real.two_pi_pos
  have hpi := Real.pi_pos
  refine ⟨?_, ?_, ?_, ?_⟩
  · unfold shortestAngle
    rcases le_or_lt 0 (target - current + Real.pi) with hca | hca
    · have h := jsRem_nonneg_mem _ _ hb hca
      constructor <;> linarith [h.1, h.2]
    · have h := jsRem_neg_mem _ _ hb hca
      constructor <;> linarith [h.1, h.2]
  · intro hca
    unfold shortestAngle
    have h := jsRem_nonneg_mem _ _ hb hca
    constructor <;> linarith [h.1, h.2]
  · unfold headingStep
    dsimp only
    rw [add_sub_cancel_left, abs_le]
    have h10 : ROTATION_SPEED = (10:ℝ) := by norm_num [ROTATION_SPEED]
    unfold clampR
    rw [h10]
    constructor
    · exact le_max_left _ _
    · exact max_le (by linarith) (min_le_left _ _)
  · refine ⟨toIocDiv hb (-Real.pi) (headingStep current target dt), ?_⟩
    have h := toIocMod_mem_Ioc hb (-Real.pi) (headingStep current target dt)
    rw [← self_sub_toIocDiv_zsmul hb (-Real.pi) (headingStep current target dt)] at h
    rw [zsmul_eq_mul] at h
    have harr : -Real.pi + 2 * Real.pi = Real.pi := by ring
    rw [harr] at h
    have hcomm : headingStep current target dt - 2 * Real.pi *
        ((toIocDiv hb (-Real.pi) (headingStep current target dt) : ℤ) : ℝ) =
        headingStep current target dt -
          ((toIocDiv hb (-Real.pi) (headingStep current target dt) : ℤ) : ℝ) *
            (2 * Real.pi) := by
      ring
    rw [hcomm]
    exact h

/-- Witness for C6 at current = 0, target = 0, dt = 1. -/
theorem heading_error_and_rate_cap_amended_witness :
    (-(3 * Real.pi) < shortestAngle 0 0 ∧ shortestAngle 0 0 < Real.pi) ∧
    (0 ≤ (0:ℝ) - 0 + Real.pi →
      -Real.pi ≤ shortestAngle 0 0 ∧ shortestAngle 0 0 < Real.pi) ∧
    |headingStep 0 0 1 - 0| ≤ 10 * 1 ∧
    (∃ k : ℤ, headingStep 0 0 1 - 2 * Real.pi * (k : ℝ) ∈
      Set.Ioc (-Real.pi) Real.pi) :=
  heading_error_and_rate_cap_amended 0 0 1 (by norm_num)

end

end Game
